import Mathlib

/-!
Verification of the HAFamilyLink time-limit decoding and reconciliation
engine against its natural-language specification.

The definitions below are shallow embeddings of the Python source:

* `custom_components/familylink/client/api.py`
  (`async_get_time_limit`, `async_get_applied_time_limits`)
* `custom_components/familylink/coordinator.py`
  (`_async_update_data`, `async_control_device`,
   `set_pending_time_limit_state`, `get_pending_time_limit_state`)
* `custom_components/familylink/switch.py` (the three toggle switches)

Raw JSON responses are modelled by the inductive type `JVal` (the
positional-array payloads of these endpoints contain only null, integers,
strings and nested arrays).  Python exceptions are modelled by the
`Except PyErr` monad; wall-clock timestamps by rationals; the current
local time by the record `PyTime`.
-/

namespace FamilyLink

/-- Errors a Python expression can raise while decoding. -/
inductive PyErr where
  | typeError
  | valueError
  | indexError
  deriving DecidableEq, Repr

/-- JSON values appearing in the protobuf-over-JSON payloads of the
`timeLimit` / `appliedTimeLimits` endpoints: null, integers, strings and
nested arrays. -/
inductive JVal where
  | null : JVal
  | i : Int → JVal
  | s : String → JVal
  | arr : List JVal → JVal

namespace JVal

/-- Structural equality test for `JVal` (Python `==` on these values). -/
def beq : JVal → JVal → Bool
  | .null, .null => true
  | .i a, .i b => a == b
  | .s a, .s b => a == b
  | .arr [], .arr [] => true
  | .arr (x :: xs), .arr (y :: ys) => beq x y && beq (.arr xs) (.arr ys)
  | _, _ => false

theorem beq_iff : ∀ a b : JVal, beq a b = true ↔ a = b := by
  intro a b
  induction a, b using beq.induct with
  | case6 a b h1 h2 h3 h4 h5 =>
    cases a <;> cases b <;> try simp_all [beq]
    case arr.arr la lb =>
      cases la <;> cases lb <;> try simp_all [beq]
      all_goals exact fun _ _ => absurd rfl (h5 _ _ _ _ rfl rfl rfl)
  | _ => simp_all [beq]

instance : DecidableEq JVal := fun a b =>
  if h : beq a b = true then .isTrue ((beq_iff a b).mp h)
  else .isFalse (fun he => h ((beq_iff a b).mpr he))

instance : BEq JVal := ⟨beq⟩

/-- Python `v == k` for an integer literal `k` (the only equality the
decoders perform on payload values). -/
def eqInt (v : JVal) (k : Int) : Bool :=
  match v with
  | .i n => n == k
  | _ => false

/-- Python `isinstance(v, list)`. -/
def isArr : JVal → Bool
  | .arr _ => true
  | _ => false

/-- Python `isinstance(v, str)`. -/
def isStr : JVal → Bool
  | .s _ => true
  | _ => false

/-- Python `isinstance(v, int)`. -/
def isInt : JVal → Bool
  | .i _ => true
  | _ => false

/-- Python truthiness: `None`, `0`, `""` and `[]` are falsy. -/
def truthy : JVal → Bool
  | .null => false
  | .i n => n != 0
  | .s st => st != ""
  | .arr l => !l.isEmpty

/-- The `n`-th item of an already-checked list value (`v[n]` where the
source has established that `v` is a list long enough); `null` outside. -/
def nth (v : JVal) (n : Nat) : JVal :=
  match v with
  | .arr l => l.getD n .null
  | _ => .null

/-- The length of an already-checked list value (`len(v)` where the source
has established that `v` is a list); `0` otherwise. -/
def alen (v : JVal) : Nat :=
  match v with
  | .arr l => l.length
  | _ => 0

end JVal

/-- Python `s.startswith(p)` (over the character lists, so that concrete
inputs evaluate). -/
def pyStartsWith (s p : String) : Bool :=
  List.isPrefixOf p.data s.data

/-- Python `len(s)` for a string. -/
def pyStrLen (s : String) : Nat :=
  s.data.length

/-- Python `str.isdigit()` on the ASCII digit strings these payloads use. -/
def pyIsdigit (st : String) : Bool :=
  !st.data.isEmpty && st.data.all Char.isDigit

/-- Numeric value of a string of ASCII digits. -/
def digitsVal (cs : List Char) : Nat :=
  cs.foldl (fun a c => a * 10 + (c.toNat - 48)) 0

/-- Python `int(st)` for a string that passed `isdigit`. -/
def digitsToNat (st : String) : Nat :=
  digitsVal st.data

/-- Python `int(st)` on an arbitrary string: optional minus sign followed
by digits, `none` when `int()` would raise `ValueError`. -/
def pyParseInt (st : String) : Option Int :=
  match st.data with
  | [] => none
  | '-' :: rest =>
    if !rest.isEmpty && rest.all Char.isDigit then
      some (-(digitsVal rest : Int))
    else none
  | cs =>
    if cs.all Char.isDigit then
      some (digitsVal cs : Int)
    else none

/-- Python `int(x) if isinstance(x, str) else x` for an int-or-str value,
`none` when the conversion would raise. -/
def pyIntCoerce (v : JVal) : Option Int :=
  match v with
  | .i n => some n
  | .s st => pyParseInt st
  | _ => none

/-!
## Pending overlay (`coordinator.py`, `set_pending_time_limit_state` /
`get_pending_time_limit_state`)

The coordinator keeps `_pending_time_limit_states`, a dict from child id
to a dict from limit type (`"bedtime"` / `"school_time"` / `"daily_limit"`)
to `(enabled, timestamp)`.  Dicts are modelled as functions into `Option`;
`time.time()` values as rationals.
-/

/-- The `_pending_time_limit_states` nested dict: child id to limit type
to `(enabled, timestamp)`. -/
def PendingStates : Type := String → Option (String → Option (Bool × ℚ))

/-- The empty overlay (a fresh coordinator). -/
def PendingStates.empty : PendingStates := fun _ => none

/-- Lookup of one `(child_id, limit_type)` entry across both dict levels. -/
def PendingStates.entry (st : PendingStates) (child limitType : String) :
    Option (Bool × ℚ) :=
  match st child with
  | none => none
  | some inner => inner limitType

/-- Shallow embedding of `set_pending_time_limit_state` (coordinator.py
lines 355-369): create the child's inner dict if missing, then store
`(enabled, now)` under the limit type. -/
def setPendingTimeLimitState (st : PendingStates) (child limitType : String)
    (enabled : Bool) (now : ℚ) : PendingStates :=
  let inner := match st child with
    | none => fun _ => none
    | some m => m
  fun c =>
    if c = child then
      some (fun k => if k = limitType then some (enabled, now) else inner k)
    else st c

/-- Shallow embedding of `get_pending_time_limit_state` (coordinator.py
lines 371-397).  Returns the pending value together with the overlay state
after the call (the source mutates the dict in place: an entry older than
5 seconds is deleted on read). -/
def getPendingTimeLimitState (st : PendingStates) (child limitType : String)
    (now : ℚ) : Option Bool × PendingStates :=
  match st child with
  | none => (none, st)
  | some inner =>
    match inner limitType with
    | none => (none, st)
    | some (enabled, timestamp) =>
      let age := now - timestamp
      if age < 5 then
        (some enabled, st)
      else
        (none, fun c =>
          if c = child then
            some (fun k => if k = limitType then none else inner k)
          else st c)

/-!
## The `appliedTimeLimits` decoder (`api.py`, `async_get_applied_time_limits`)

`datetime.now()` is modelled by `PyTime`: the ISO weekday, the minute of
day (comparisons between `now` and `now.replace(hour=h, minute=m,
second=0, microsecond=0)` reduce to minute-of-day comparisons), and the
epoch milliseconds of local midnight (so today at `h:m` stamps to
`midnightMs + (60*h+m)*60000`).
-/

/-- The current local time as the decoder observes it. -/
structure PyTime where
  isoweekday : Int
  minuteOfDay : Int
  midnightMs : Int

/-- Epoch milliseconds of today at hour `h`, minute `m`
(`int(now.replace(hour=h, minute=m, second=0, microsecond=0).timestamp() * 1000)`). -/
def PyTime.todayMs (tm : PyTime) (h m : Int) : Int :=
  tm.midnightMs + (60 * h + m) * 60000

/-- The per-device dictionary built by `async_get_applied_time_limits`
(api.py lines 966-978); `daily_limit_remaining` is `none` while the key is
absent from the Python dict. -/
structure DeviceInfo where
  total_allowed_minutes : Int
  used_minutes : Int
  remaining_minutes : Int
  daily_limit_enabled : Bool
  daily_limit_minutes : Int
  daily_limit_remaining : Option Int
  bedtime_window : Option (Int × Int)
  schooltime_window : Option (Int × Int)
  bedtime_active : Bool
  schooltime_active : Bool
  bonus_minutes : Int
  bonus_override_id : Option JVal
  deriving DecidableEq

/-- The freshly initialised `device_info` dict (api.py lines 966-978). -/
def initDeviceInfo : DeviceInfo where
  total_allowed_minutes := 0
  used_minutes := 0
  remaining_minutes := 0
  daily_limit_enabled := false
  daily_limit_minutes := 0
  daily_limit_remaining := none
  bedtime_window := none
  schooltime_window := none
  bedtime_active := false
  schooltime_active := false
  bonus_minutes := 0
  bonus_override_id := none

/-- Python `now.replace(hour=h, minute=m, second=0, microsecond=0)`:
raises `TypeError` on non-integer arguments and `ValueError` outside
0..23 / 0..59; otherwise yields the validated pair. -/
def pyReplaceHourMinute (h m : JVal) : Except PyErr (Int × Int) :=
  match h, m with
  | .i hv, .i mv =>
    if 0 ≤ hv ∧ hv ≤ 23 ∧ 0 ≤ mv ∧ mv ≤ 59 then
      .ok (hv, mv)
    else
      .error .valueError
  | _, _ => .error .typeError

/-- Shallow embedding of one iteration of the schedule-item loop of
`async_get_applied_time_limits` (api.py lines 1041-1189): `item` is
`device_data[idx]` and `d` the `device_info` dict accumulated so far.
Only the window branches can raise (through `now.replace`). -/
def parseScheduleItem (tm : PyTime) (idx : Nat) (item : JVal)
    (d : DeviceInfo) : Except PyErr DeviceInfo :=
  match item with
  | .arr l =>
    if 4 ≤ l.length then
      match l.getD 0 .null with
      | .s tag =>
        if pyStartsWith tag "CAEQ" then
          if l.length = 6 then
            -- daily limit tuple [tag, day, state_flag, minutes, created, updated]
            match l.getD 1 .null, l.getD 2 .null, l.getD 3 .null with
            | .i day, .i stateFlag, .i minutes =>
              if day = tm.isoweekday then
                .ok { d with
                  daily_limit_enabled := decide (idx < 10) && decide (stateFlag = 2),
                  daily_limit_minutes := minutes }
              else .ok d
            | _, _, _ => .ok d
          else if l.length = 8 then
            -- bedtime window [tag, day, state_flag, [sh,sm], [eh,em], created, updated, policy]
            match l.getD 1 .null, l.getD 2 .null, l.getD 3 .null, l.getD 4 .null with
            | .i day, .i stateFlag, .arr start_t, .arr end_t =>
              if day = tm.isoweekday ∧ stateFlag = 2 ∧
                  start_t.length = 2 ∧ end_t.length = 2 then do
                let (sh, sm) ← pyReplaceHourMinute (start_t.getD 0 .null) (start_t.getD 1 .null)
                let (eh, em) ← pyReplaceHourMinute (end_t.getD 0 .null) (end_t.getD 1 .null)
                let sMin := 60 * sh + sm
                let eMin := 60 * eh + em
                let crossesMidnight := eh < sh ∨ (eh = sh ∧ em < sm)
                let active :=
                  if crossesMidnight then
                    sMin ≤ tm.minuteOfDay ∨ tm.minuteOfDay < eMin
                  else
                    sMin ≤ tm.minuteOfDay ∧ tm.minuteOfDay < eMin
                .ok { d with
                  bedtime_window := some (tm.todayMs sh sm, tm.todayMs eh em),
                  bedtime_active := active }
              else .ok d
            | _, _, _, _ => .ok d
          else .ok d
        else if pyStartsWith tag "CAMQ" then
          if l.length = 8 then
            -- schooltime window, identical handling on the schooltime fields
            match l.getD 1 .null, l.getD 2 .null, l.getD 3 .null, l.getD 4 .null with
            | .i day, .i stateFlag, .arr start_t, .arr end_t =>
              if day = tm.isoweekday ∧ stateFlag = 2 ∧
                  start_t.length = 2 ∧ end_t.length = 2 then do
                let (sh, sm) ← pyReplaceHourMinute (start_t.getD 0 .null) (start_t.getD 1 .null)
                let (eh, em) ← pyReplaceHourMinute (end_t.getD 0 .null) (end_t.getD 1 .null)
                let sMin := 60 * sh + sm
                let eMin := 60 * eh + em
                let crossesMidnight := eh < sh ∨ (eh = sh ∧ em < sm)
                let active :=
                  if crossesMidnight then
                    sMin ≤ tm.minuteOfDay ∨ tm.minuteOfDay < eMin
                  else
                    sMin ≤ tm.minuteOfDay ∧ tm.minuteOfDay < eMin
                .ok { d with
                  schooltime_window := some (tm.todayMs sh sm, tm.todayMs eh em),
                  schooltime_active := active }
              else .ok d
            | _, _, _, _ => .ok d
          else .ok d
        else .ok d
      | _ => .ok d
    else if l.length = 2 then
      -- bare pair of raw epoch-ms values (heuristic fallback, lines 1172-1189)
      if l.all (fun x => x.isInt || x.isStr) then
        match pyIntCoerce (l.getD 0 .null), pyIntCoerce (l.getD 1 .null) with
        | some startMs, some endMs =>
          if 1000000000000 < startMs ∧ 1000000000000 < endMs then
            if d.bedtime_window = none then
              .ok { d with
                bedtime_window := some (startMs, endMs),
                bedtime_active := true }
            else if d.schooltime_window = none then
              .ok { d with
                schooltime_window := some (startMs, endMs),
                schooltime_active := true }
            else .ok d
          else .ok d
        | _, _ => .ok d
      else .ok d
    else .ok d
  | _ => .ok d

/-- The schedule-item loop `for idx, item in enumerate(device_data)`,
threading the `device_info` dict; a raised exception aborts the loop. -/
def foldScheduleItems (tm : PyTime) (idx : Nat) (items : List JVal)
    (d : DeviceInfo) : Except PyErr DeviceInfo :=
  match items with
  | [] => .ok d
  | item :: rest => do
    let d1 ← parseScheduleItem tm idx item d
    foldScheduleItems tm (idx + 1) rest d1

/-- Final derivation of `total_allowed_minutes` / `remaining_minutes` /
`daily_limit_remaining` (api.py lines 1191-1225): only performed when
`daily_limit_enabled` and `daily_limit_minutes > 0`; a positive bonus
REPLACES the normal quota. -/
def finalizeDeviceInfo (d : DeviceInfo) : DeviceInfo :=
  if d.daily_limit_enabled then
    if 0 < d.daily_limit_minutes then
      let dlr := max 0 (d.daily_limit_minutes - d.used_minutes)
      if 0 < d.bonus_minutes then
        { d with
          daily_limit_remaining := some dlr,
          total_allowed_minutes := d.bonus_minutes,
          remaining_minutes := d.bonus_minutes }
      else
        { d with
          daily_limit_remaining := some dlr,
          total_allowed_minutes := d.daily_limit_minutes,
          remaining_minutes := dlr }
    else d
  else d

/-- Device-id extraction (api.py lines 946-951): `entry[0][3]` when
`entry[0]` is a truthy list of more than 3 items, else a truthy
`entry[25]`, else `None`. -/
def entryDeviceId (e : List JVal) : JVal :=
  let e0 := e.getD 0 .null
  if e0.truthy ∧ e0.isArr ∧ 3 < e0.alen then e0.nth 3
  else if 25 < e.length ∧ (e.getD 25 .null).truthy then e.getD 25 .null
  else .null

/-- Lock-state extraction (api.py lines 956-962): `entry[0]` a non-null
list of more than 2 items whose `entry[0][2] == 1`. -/
def entryIsLocked (e : List JVal) : Bool :=
  let e0 := e.getD 0 .null
  if e0.isArr ∧ 2 < e0.alen then (e0.nth 2).eqInt 1 else false

/-- Bonus-override parsing over the fresh `device_info` dict (api.py lines
980-1007): a truthy `entry[0]` list of more than 13 items with type code
10 at `entry[0][2]` and a digit string at `entry[0][13][0][0]` stores the
override id and `seconds // 60` bonus minutes. -/
def entryBonusInfo (e : List JVal) : DeviceInfo :=
  let e0 := e.getD 0 .null
  if e0.truthy ∧ e0.isArr ∧ 13 < e0.alen then
    if (e0.nth 2).eqInt 10 then
      match e0.nth 13 with
      | .arr l13 =>
        if 0 < l13.length then
          match l13.getD 0 .null with
          | .arr l130 =>
            if 0 < l130.length then
              match l130.getD 0 .null with
              | .s bonusStr =>
                if pyIsdigit bonusStr then
                  { initDeviceInfo with
                    bonus_override_id := some (e0.nth 0),
                    bonus_minutes := (digitsToNat bonusStr / 60 : Nat) }
                else initDeviceInfo
              | _ => initDeviceInfo
            else initDeviceInfo
          | _ => initDeviceInfo
        else initDeviceInfo
      | _ => initDeviceInfo
    else initDeviceInfo
  else initDeviceInfo

/-- Used-minutes parsing (api.py lines 1013-1027): `entry[20]` as a digit
string of milliseconds, integer-divided by 60000. -/
def entryUsedInfo (e : List JVal) : DeviceInfo :=
  let d1 := entryBonusInfo e
  if 20 < e.length then
    match e.getD 20 .null with
    | .s msStr =>
      if pyIsdigit msStr then
        { d1 with used_minutes := (digitsToNat msStr / 60000 : Nat) }
      else d1
    | _ => d1
  else d1

/-- Shallow embedding of one pass of the device loop of
`async_get_applied_time_limits` (api.py lines 942-1234) on an entry of
`data[1]`.  `none` models `continue` (entry skipped); otherwise the
decoded `(device_id, is_locked, device_info)` triple. -/
def parseDeviceEntry (tm : PyTime) (entry : JVal) :
    Except PyErr (Option (JVal × Bool × DeviceInfo)) :=
  match entry with
  | .arr e =>
    if e.length < 25 then .ok none
    else if ¬ (entryDeviceId e).truthy then .ok none
    else do
      let d3 ← foldScheduleItems tm 0 e (entryUsedInfo e)
      .ok (some (entryDeviceId e, entryIsLocked e, finalizeDeviceInfo d3))
  | _ => .ok none

/-- Result of the `appliedTimeLimits` decoder: the per-device lock states
and the per-device time-limit dictionaries, in insertion order. -/
structure AppliedResult where
  device_lock_states : List (JVal × Bool)
  devices : List (JVal × DeviceInfo)
  deriving DecidableEq

/-- The device loop over `data[1]`. -/
def decodeAppliedEntries (tm : PyTime) : List JVal → Except PyErr AppliedResult
  | [] => .ok ⟨[], []⟩
  | entry :: rest => do
    match ← parseDeviceEntry tm entry with
    | none => decodeAppliedEntries tm rest
    | some (deviceId, isLocked, info) =>
      let r ← decodeAppliedEntries tm rest
      .ok ⟨(deviceId, isLocked) :: r.device_lock_states,
           (deviceId, info) :: r.devices⟩

/-- Shallow embedding of the decoding part of
`async_get_applied_time_limits` (api.py lines 935-1243) on the parsed JSON
body.  `len(data)` raises `TypeError` on non-sequences; a string body has
no list items, and any raised exception surfaces (the source re-raises it
as `NetworkError`). -/
def decodeAppliedTimeLimits (tm : PyTime) (raw : JVal) :
    Except PyErr AppliedResult :=
  match raw with
  | .arr l =>
    if 1 < l.length then
      match l.getD 1 .null with
      | .arr entries => decodeAppliedEntries tm entries
      | _ => .ok ⟨[], []⟩
    else .ok ⟨[], []⟩
  | .s _ => .ok ⟨[], []⟩
  | _ => .error .typeError

/-!
## The `timeLimit` decoder (`api.py`, `async_get_time_limit`)
-/

/-- Result dict of `async_get_time_limit`; schedule entries keep the raw
`(day, start, end)` values the source appends. -/
structure TimeLimitResult where
  bedtime_enabled : Bool
  school_time_enabled : Bool
  bedtime_schedule : List (JVal × JVal × JVal)
  school_time_schedule : List (JVal × JVal × JVal)
  bedtime_rule_id : Option JVal
  schooltime_rule_id : Option JVal
  deriving DecidableEq

/-- The all-disabled/empty default returned on structural anomalies
(api.py lines 1929-1936). -/
def defaultTimeLimitResult : TimeLimitResult where
  bedtime_enabled := false
  school_time_enabled := false
  bedtime_schedule := []
  school_time_schedule := []
  bedtime_rule_id := none
  schooltime_rule_id := none

/-- One schedule item of the `timeLimit` payload: a list of length ≥ 4
whose first element is a string with the given tag prefix and whose
`(day, start, end)` fields (indices 1..3) are all truthy (api.py lines
1962-1972 and 1984-1994). -/
def schedOfItem (tagPrefix : String) (item : JVal) :
    Option (JVal × JVal × JVal) :=
  match item with
  | .arr l =>
    if 4 ≤ l.length then
      match l.getD 0 .null with
      | .s tag =>
        if pyStartsWith tag tagPrefix then
          let day := l.getD 1 .null
          let start := l.getD 2 .null
          let stop := l.getD 3 .null
          if day.truthy ∧ start.truthy ∧ stop.truthy then
            some (day, start, stop)
          else none
        else none
      | _ => none
    else none
  | _ => none

/-- Bedtime schedule extraction from `data[0][0][1]` (api.py lines
1951-1972): iterate the inner lists, collecting `CAEQ`-tagged items. -/
def bedtimeSchedules (data : JVal) : List (JVal × JVal × JVal) :=
  match data with
  | .arr dl =>
    if 0 < dl.length then
      match dl.getD 0 .null with
      | .arr bedtimeConfig =>
        if 0 < bedtimeConfig.length then
          match bedtimeConfig.getD 0 .null with
          | .arr scheduleData =>
            if 1 < scheduleData.length then
              match scheduleData.getD 1 .null with
              | .arr scheduleLists =>
                (scheduleLists.map (fun sl =>
                  match sl with
                  | .arr items => items.filterMap (schedOfItem "CAEQ")
                  | _ => [])).flatten
              | _ => []
            else []
          | _ => []
        else []
      | _ => []
    else []
  | _ => []

/-- School-time schedule extraction from `data[1][0][2]` (api.py lines
1974-1994): collect `CAMQ`-tagged items. -/
def schoolSchedules (data : JVal) : List (JVal × JVal × JVal) :=
  match data with
  | .arr dl =>
    if 1 < dl.length then
      match dl.getD 1 .null with
      | .arr dailyLimitConfig =>
        if 0 < dailyLimitConfig.length then
          match dailyLimitConfig.getD 0 .null with
          | .arr configData =>
            if 2 < configData.length then
              match configData.getD 2 .null with
              | .arr items => items.filterMap (schedOfItem "CAMQ")
              | _ => []
            else []
          | _ => []
        else []
      | _ => []
    else []
  | _ => []

/-- Revision candidate filter (api.py lines 2022-2025): exactly 4 elements
with a list in the last slot. -/
def revCandidate (item : JVal) : Bool :=
  match item with
  | .arr l => l.length = 4 && (l.getD 3 .null).isArr
  | _ => false

/-- Revision validity filter (api.py lines 2033-2038): rule id a string
longer than 30, `type_flag` and `state_flag` integers in `{1, 2}`. -/
def revValidExtra (item : JVal) : Bool :=
  (match item.nth 0 with
    | .s rid => 30 < pyStrLen rid
    | _ => false) &&
  (match item.nth 1 with
    | .i t => t == 1 || t == 2
    | _ => false) &&
  (match item.nth 2 with
    | .i sf => sf == 1 || sf == 2
    | _ => false)

/-- The valid revisions of one payload element, both filters composed. -/
def validRevisions (e : JVal) : List JVal :=
  match e with
  | .arr items => (items.filter revCandidate).filter revValidExtra
  | _ => []

/-- Enabled flags and rule ids extracted from revisions. -/
structure RevisionFlags where
  bedtime_enabled : Bool
  school_time_enabled : Bool
  bedtime_rule_id : Option JVal
  schooltime_rule_id : Option JVal
  deriving DecidableEq

/-- The pre-loop defaults (api.py lines 2002-2005). -/
def initRevisionFlags : RevisionFlags where
  bedtime_enabled := false
  school_time_enabled := false
  bedtime_rule_id := none
  schooltime_rule_id := none

/-- One revision applied to the flags (api.py lines 2043-2057):
`type_flag == 1` updates the bedtime pair, `type_flag == 2` the
school-time pair, each enabled iff `state_flag == 2`. -/
def applyRevision (st : RevisionFlags) (item : JVal) : RevisionFlags :=
  if (item.nth 1).eqInt 1 then
    { st with
      bedtime_enabled := (item.nth 2).eqInt 2,
      bedtime_rule_id := some (item.nth 0) }
  else if (item.nth 1).eqInt 2 then
    { st with
      school_time_enabled := (item.nth 2).eqInt 2,
      schooltime_rule_id := some (item.nth 0) }
  else st

/-- The backward scan over the payload (api.py lines 2012-2058) on the
already-reversed element list: the first element (from the end) holding a
nonempty valid revision set is folded over `applyRevision` and the scan
stops (`break`); others are skipped. -/
def scanRevisionsRev : List JVal → RevisionFlags
  | [] => initRevisionFlags
  | e :: rest =>
    match e with
    | .arr items =>
      let cands := items.filter revCandidate
      if cands.isEmpty then scanRevisionsRev rest
      else
        let valid := cands.filter revValidExtra
        if valid.isEmpty then scanRevisionsRev rest
        else valid.foldl applyRevision initRevisionFlags
    | _ => scanRevisionsRev rest

/-- Shallow embedding of the decoding part of `async_get_time_limit`
(api.py lines 1923-2075) on the parsed JSON body. -/
def decodeTimeLimit (raw : JVal) : Except PyErr TimeLimitResult :=
  match raw with
  | .arr l =>
    if l.length < 2 then .ok defaultTimeLimitResult
    else
      let data := l.getD 1 .null
      let rv :=
        match data with
        | .arr dl =>
          if 0 < dl.length then scanRevisionsRev dl.reverse
          else initRevisionFlags
        | _ => initRevisionFlags
      .ok {
        bedtime_enabled := rv.bedtime_enabled,
        school_time_enabled := rv.school_time_enabled,
        bedtime_schedule := bedtimeSchedules data,
        school_time_schedule := schoolSchedules data,
        bedtime_rule_id := rv.bedtime_rule_id,
        schooltime_rule_id := rv.schooltime_rule_id }
  | _ => .ok defaultTimeLimitResult

/-!
## Polling orchestrator retry (`coordinator.py`, `_async_update_data`)

`_async_fetch_data` either returns data or raises; `_async_refresh_auth`
never raises (it catches its own exceptions).  A run of
`_async_update_data` is determined by the outcomes of the at most two
fetch attempts.
-/

/-- Outcome of one `_async_fetch_data` attempt. -/
inductive FetchOutcome where
  | ok (data : Nat)
  | sessionExpired
  | familyLinkError
  | otherError
  deriving DecidableEq

/-- Host-visible outcome of `_async_update_data`: returned data or a
raised `UpdateFailed`. -/
inductive UpdateOutcome where
  | success (data : Nat)
  | updateFailed
  deriving DecidableEq

/-- Observable effects of one `_async_update_data` run. -/
structure UpdateRun where
  outcome : UpdateOutcome
  retryingAuthAfter : Bool
  fetchCalls : Nat
  refreshCalls : Nat
  deriving DecidableEq

/-- Shallow embedding of `_async_update_data` (coordinator.py lines
43-82).  `flagBefore` is `_is_retrying_auth` on entry; `fetch1` / `fetch2`
the outcomes of the first fetch and of the retry (the second is only
reached on a first `SessionExpiredError` with the flag clear, after one
`_async_refresh_auth`); the inner `finally` resets the flag. -/
def updateData (flagBefore : Bool) (fetch1 fetch2 : FetchOutcome) : UpdateRun :=
  match fetch1 with
  | .ok d => ⟨.success d, flagBefore, 1, 0⟩
  | .familyLinkError => ⟨.updateFailed, flagBefore, 1, 0⟩
  | .otherError => ⟨.updateFailed, flagBefore, 1, 0⟩
  | .sessionExpired =>
    if flagBefore then
      ⟨.updateFailed, flagBefore, 1, 0⟩
    else
      match fetch2 with
      | .ok d => ⟨.success d, false, 2, 1⟩
      | .sessionExpired => ⟨.updateFailed, false, 2, 1⟩
      | .familyLinkError => ⟨.updateFailed, false, 2, 1⟩
      | .otherError => ⟨.updateFailed, false, 2, 1⟩

/-!
## Command handlers as event traces (`switch.py` toggles,
`coordinator.py` `async_control_device`)

Each user-issued mutating handler is embedded as the ordered list of its
observable events, read off the source line by line.
-/

/-- Observable events of a command handler. -/
inductive CmdEvent where
  | setPendingLimit (child limitType : String) (value : Bool)
  | setPendingLock (deviceId : String) (value : Bool)
  | writeHaState
  | awaitNetwork (command : String)
  | sleep
  | requestRefresh
  deriving DecidableEq

/-- Events writing a pending-overlay entry. -/
def isPendingWrite : CmdEvent → Bool
  | .setPendingLimit _ _ _ => true
  | .setPendingLock _ _ => true
  | _ => false

/-- Events awaiting a mutating network command. -/
def isAwaitNetwork : CmdEvent → Bool
  | .awaitNetwork _ => true
  | _ => false

/-- Index of the first event of a trace satisfying `p`. -/
def firstIdx (p : CmdEvent → Bool) : List CmdEvent → Option Nat
  | [] => none
  | e :: rest => if p e then some 0 else (firstIdx p rest).map (· + 1)

/-- Whether a trace writes a pending-overlay entry strictly before its
first awaited network command. -/
def writesPendingBeforeAwait (tr : List CmdEvent) : Bool :=
  match firstIdx isPendingWrite tr, firstIdx isAwaitNetwork tr with
  | some i, some j => decide (i < j)
  | _, _ => false

/-- `FamilyLinkBedtimeSwitch.async_turn_on` (switch.py lines 321-335). -/
def bedtimeTurnOnEvents (child : String) (success : Bool) : List CmdEvent :=
  [.setPendingLimit child "bedtime" true, .writeHaState,
   .awaitNetwork "enable_bedtime"] ++
  (if success then [.requestRefresh] else [])

/-- `FamilyLinkBedtimeSwitch.async_turn_off` (switch.py lines 337-351). -/
def bedtimeTurnOffEvents (child : String) (success : Bool) : List CmdEvent :=
  [.setPendingLimit child "bedtime" false, .writeHaState,
   .awaitNetwork "disable_bedtime"] ++
  (if success then [.requestRefresh] else [])

/-- `FamilyLinkSchoolTimeSwitch.async_turn_on` (switch.py lines 410-424). -/
def schoolTimeTurnOnEvents (child : String) (success : Bool) : List CmdEvent :=
  [.setPendingLimit child "school_time" true, .writeHaState,
   .awaitNetwork "enable_school_time"] ++
  (if success then [.requestRefresh] else [])

/-- `FamilyLinkSchoolTimeSwitch.async_turn_off` (switch.py lines 426-440). -/
def schoolTimeTurnOffEvents (child : String) (success : Bool) : List CmdEvent :=
  [.setPendingLimit child "school_time" false, .writeHaState,
   .awaitNetwork "disable_school_time"] ++
  (if success then [.requestRefresh] else [])

/-- `FamilyLinkDailyLimitSwitch.async_turn_on` (switch.py lines 499-513). -/
def dailyLimitTurnOnEvents (child : String) (success : Bool) : List CmdEvent :=
  [.setPendingLimit child "daily_limit" true, .writeHaState,
   .awaitNetwork "enable_daily_limit"] ++
  (if success then [.requestRefresh] else [])

/-- `FamilyLinkDailyLimitSwitch.async_turn_off` (switch.py lines 515-529). -/
def dailyLimitTurnOffEvents (child : String) (success : Bool) : List CmdEvent :=
  [.setPendingLimit child "daily_limit" false, .writeHaState,
   .awaitNetwork "disable_daily_limit"] ++
  (if success then [.requestRefresh] else [])

/-- `FamilyLinkDataUpdateCoordinator.async_control_device` (coordinator.py
lines 318-349) with the child id resolved: the mutating network command is
awaited first, and the pending lock state is stored only afterwards and
only on success. -/
def controlDeviceEvents (deviceId action : String) (success : Bool) :
    List CmdEvent :=
  [.awaitNetwork "control_device"] ++
  (if success then
    [.setPendingLock deviceId (action = "lock"), .sleep, .requestRefresh]
  else [])

/-!
## Theorems
-/

/-- C3: for every key `(child_id, limit_type)` and boolean `v`, setting the
pending state and reading it back strictly less than 5 seconds later
returns `v` (and leaves the overlay untouched); reading it back strictly
more than 5 seconds later returns `none` and removes that entry from the
overlay. -/
theorem pending_overlay_ttl (st : PendingStates) (child limitType : String)
    (v : Bool) (t tRead : ℚ) :
    (tRead - t < 5 →
      getPendingTimeLimitState
        (setPendingTimeLimitState st child limitType v t) child limitType tRead =
      (some v, setPendingTimeLimitState st child limitType v t)) ∧
    (5 < tRead - t →
      (getPendingTimeLimitState
        (setPendingTimeLimitState st child limitType v t) child limitType tRead).1 =
        none ∧
      ((getPendingTimeLimitState
        (setPendingTimeLimitState st child limitType v t) child limitType tRead).2).entry
        child limitType = none) := by
  constructor
  · intro h
    simp [getPendingTimeLimitState, setPendingTimeLimitState, h]
  · intro h
    have hnlt : ¬ (tRead - t < 5) := by linarith
    refine ⟨?_, ?_⟩ <;>
      simp [getPendingTimeLimitState, setPendingTimeLimitState,
        PendingStates.entry, hnlt]

/-- Witness for `pending_overlay_ttl` at a concrete key and concrete
timestamps on both sides of the TTL. -/
theorem pending_overlay_ttl_witness :
    getPendingTimeLimitState
      (setPendingTimeLimitState PendingStates.empty "child1" "bedtime" true 0)
      "child1" "bedtime" 1 =
      (some true,
       setPendingTimeLimitState PendingStates.empty "child1" "bedtime" true 0) ∧
    (getPendingTimeLimitState
      (setPendingTimeLimitState PendingStates.empty "child1" "bedtime" true 0)
      "child1" "bedtime" 6).1 = none := by
  refine ⟨?_, ?_⟩
  · exact (pending_overlay_ttl PendingStates.empty "child1" "bedtime" true 0 1).1
      (by norm_num)
  · exact ((pending_overlay_ttl PendingStates.empty "child1" "bedtime" true 0 6).2
      (by norm_num)).1

/-- C10: writing or reading one `(child_id, limit_type)` pending entry
leaves every other overlay entry unchanged; in particular the lazy
deletion performed by an expired read removes only that one entry. -/
theorem pending_overlay_frame (st : PendingStates) (child limitType : String)
    (v : Bool) (t tRead : ℚ) (child2 limitType2 : String)
    (hne : (child2, limitType2) ≠ (child, limitType)) :
    (setPendingTimeLimitState st child limitType v t).entry child2 limitType2 =
      st.entry child2 limitType2 ∧
    ((getPendingTimeLimitState st child limitType tRead).2).entry child2 limitType2 =
      st.entry child2 limitType2 := by
  have hsplit : child2 ≠ child ∨ (child2 = child ∧ limitType2 ≠ limitType) := by
    by_cases hc : child2 = child
    · refine .inr ⟨hc, ?_⟩
      intro hk
      exact hne (by simp [hc, hk])
    · exact .inl hc
  constructor
  · rcases hsplit with hc | ⟨hc, hk⟩
    · simp [setPendingTimeLimitState, PendingStates.entry, hc]
    · subst hc
      cases hst : st child2 <;>
        simp [setPendingTimeLimitState, PendingStates.entry, hk, hst]
  · unfold getPendingTimeLimitState
    split
    · rfl
    · rename_i inner hst
      split
      · rfl
      · rename_i enabled timestamp hin
        dsimp only
        split
        · rfl
        · rcases hsplit with hc | ⟨hc, hk⟩
          · simp [PendingStates.entry, hc]
          · subst hc
            simp [PendingStates.entry, hk, hst]

/-- Witness for `pending_overlay_frame`: a write and an expired read for
one key leave a different key of the same child untouched. -/
theorem pending_overlay_frame_witness :
    (setPendingTimeLimitState
      (setPendingTimeLimitState PendingStates.empty "child1" "school_time" false 0)
      "child1" "bedtime" true 0).entry "child1" "school_time" =
      (setPendingTimeLimitState PendingStates.empty "child1" "school_time" false 0).entry
        "child1" "school_time" ∧
    ((getPendingTimeLimitState
      (setPendingTimeLimitState PendingStates.empty "child1" "school_time" false 0)
      "child1" "bedtime" 100).2).entry "child1" "school_time" =
      (setPendingTimeLimitState PendingStates.empty "child1" "school_time" false 0).entry
        "child1" "school_time" :=
  pending_overlay_frame
    (setPendingTimeLimitState PendingStates.empty "child1" "school_time" false 0)
    "child1" "bedtime" true 0 100 "child1" "school_time" (by decide)

/-- C8: with the reentrancy flag clear on entry (as the `finally` reset
guarantees for every cycle), a run of `_async_update_data` makes exactly
one fetch and no re-authentication unless the first fetch raises
`SessionExpiredError`, in which case it performs exactly one
re-authentication and exactly one retry; a second expiry fails the cycle;
and the flag is clear again on exit. -/
theorem orchestrator_single_retry (f2 : FetchOutcome) (d : Nat) :
    updateData false (.ok d) f2 = ⟨.success d, false, 1, 0⟩ ∧
    updateData false .familyLinkError f2 = ⟨.updateFailed, false, 1, 0⟩ ∧
    updateData false .otherError f2 = ⟨.updateFailed, false, 1, 0⟩ ∧
    (updateData false .sessionExpired f2).fetchCalls = 2 ∧
    (updateData false .sessionExpired f2).refreshCalls = 1 ∧
    (updateData false .sessionExpired f2).retryingAuthAfter = false ∧
    updateData false .sessionExpired (.ok d) = ⟨.success d, false, 2, 1⟩ ∧
    updateData false .sessionExpired .sessionExpired =
      ⟨.updateFailed, false, 2, 1⟩ := by
  cases f2 <;> simp [updateData]

/-- C7 counterexample: for device lock — a command the claim covers — the
handler awaits the mutating network command FIRST (event index 0) and
records the pending lock state only afterwards (event index 1), so no
pending-overlay write precedes the await. -/
theorem pending_before_await_counterexample :
    writesPendingBeforeAwait (controlDeviceEvents "device123" "lock" true) =
      false ∧
    firstIdx isAwaitNetwork (controlDeviceEvents "device123" "lock" true) =
      some 0 ∧
    firstIdx isPendingWrite (controlDeviceEvents "device123" "lock" true) =
      some 1 := by
  refine ⟨?_, ?_, ?_⟩ <;> rfl

/-- C7 amended: the three per-child toggles (bedtime, school-time,
daily-limit, enable and disable alike) write their pending-overlay entry
synchronously before the mutating network command is awaited; device
lock/unlock, by contrast, awaits the network command first and records the
pending lock state only afterwards, and only when the command reports
success. -/
theorem pending_before_await_amended (child deviceId action : String)
    (success : Bool) :
    writesPendingBeforeAwait (bedtimeTurnOnEvents child success) = true ∧
    writesPendingBeforeAwait (bedtimeTurnOffEvents child success) = true ∧
    writesPendingBeforeAwait (schoolTimeTurnOnEvents child success) = true ∧
    writesPendingBeforeAwait (schoolTimeTurnOffEvents child success) = true ∧
    writesPendingBeforeAwait (dailyLimitTurnOnEvents child success) = true ∧
    writesPendingBeforeAwait (dailyLimitTurnOffEvents child success) = true ∧
    firstIdx isAwaitNetwork (controlDeviceEvents deviceId action success) =
      some 0 ∧
    firstIdx isPendingWrite (controlDeviceEvents deviceId action true) =
      some 1 ∧
    firstIdx isPendingWrite (controlDeviceEvents deviceId action false) =
      none := by
  cases success <;>
    simp [writesPendingBeforeAwait, firstIdx, isPendingWrite, isAwaitNetwork,
      bedtimeTurnOnEvents, bedtimeTurnOffEvents, schoolTimeTurnOnEvents,
      schoolTimeTurnOffEvents, dailyLimitTurnOnEvents, dailyLimitTurnOffEvents,
      controlDeviceEvents]

/-- A Monday morning instant (ISO weekday 1, 10:00 local). -/
def tmMonday : PyTime where
  isoweekday := 1
  minuteOfDay := 600
  midnightMs := 1700000000000

/-- A Monday instant exactly at local midnight, with epoch origin at
midnight for readable window values. -/
def tmMondayMidnight : PyTime where
  isoweekday := 1
  minuteOfDay := 0
  midnightMs := 0

/-- An `appliedTimeLimits` body whose single 26-slot device entry carries
an 8-element `CAEQ` window tuple for the current day with `state_flag = 2`
but string-valued hour/minute fields — `now.replace` raises on it. -/
def rawMalformedApplied : JVal :=
  .arr [.null, .arr [.arr
    ([.null, .null, .null,
      .arr [.s "CAEQAB", .i 1, .i 2, .arr [.s "a", .s "b"],
            .arr [.i 22, .i 0], .null, .null, .null]] ++
     List.replicate 21 .null ++ [.s "device123"])]]

/-- Whether an `Except` computation succeeded. -/
def exceptOk {α : Type} : Except PyErr α → Bool
  | .ok _ => true
  | .error _ => false

theorem exceptBind_ok {α β : Type} (a : α) (f : α → Except PyErr β) :
    (Except.ok a >>= f) = f a := rfl

theorem exceptBind_error {α β : Type} (e : PyErr)
    (f : α → Except PyErr β) :
    ((Except.error e : Except PyErr α) >>= f) = .error e := rfl

/-- C5 counterexample: a malformed field in the raw response does NOT
always degrade to a default — on `rawMalformedApplied` the
`appliedTimeLimits` decoder raises (the source wraps the `TypeError` from
`now.replace` into a raised `NetworkError`). -/
theorem decoder_never_raises_counterexample :
    decodeAppliedTimeLimits tmMonday rawMalformedApplied =
      .error .typeError := by
  rfl

/-- C5 amended: the `timeLimit` decoder never raises on any parsed JSON
body and maps the empty raw response `[]` to the all-disabled/empty
default; the `appliedTimeLimits` decoder, however, can raise on malformed
window fields (see the counterexample). -/
theorem decode_time_limit_never_raises :
    decodeTimeLimit (.arr []) = .ok defaultTimeLimitResult ∧
    ∀ raw : JVal, exceptOk (decodeTimeLimit raw) = true := by
  refine ⟨rfl, ?_⟩
  intro raw
  cases raw with
  | null => rfl
  | i n => rfl
  | s st => rfl
  | arr l => by_cases h : l.length < 2 <;> simp [decodeTimeLimit, exceptOk, h]

/-- An 8-element tagged window tuple for Monday, 10:00-11:00, enabled. -/
def taggedWindowItem : JVal :=
  .arr [.s "CAEQAg", .i 1, .i 2, .arr [.i 10, .i 0], .arr [.i 11, .i 0],
        .null, .null, .null]

/-- C9: the heuristic fallback branch (bare 2-element pair of raw epoch-ms
values beyond 10^12) sets the corresponding active flag to true
unconditionally — for every current time: the first such pair fills the
bedtime window with `bedtime_active := true`, and with the bedtime window
already filled the next pair fills the school-time window with
`schooltime_active := true` — whereas the tagged 8-element branch compares
the window against the current time (at midnight, the 10:00-11:00 window
is parsed but inactive). -/
theorem fallback_window_active_unconditional
    (tm : PyTime) (idx : Nat) (a b : Int) (d : DeviceInfo) (w : Int × Int)
    (ha : 1000000000000 < a) (hb : 1000000000000 < b) :
    (d.bedtime_window = none →
      parseScheduleItem tm idx (.arr [.i a, .i b]) d =
        .ok { d with
          bedtime_window := some (a, b), bedtime_active := true }) ∧
    (d.bedtime_window = some w → d.schooltime_window = none →
      parseScheduleItem tm idx (.arr [.i a, .i b]) d =
        .ok { d with
          schooltime_window := some (a, b), schooltime_active := true }) ∧
    parseScheduleItem tmMondayMidnight 0 taggedWindowItem initDeviceInfo =
      .ok { initDeviceInfo with
        bedtime_window := some (36000000, 39600000),
        bedtime_active := false } := by
  refine ⟨?_, ?_, ?_⟩
  · intro hw
    simp [parseScheduleItem, pyIntCoerce, JVal.isInt, JVal.isStr, ha, hb, hw]
  · intro hbw hsw
    simp [parseScheduleItem, pyIntCoerce, JVal.isInt, JVal.isStr, ha, hb,
      hbw, hsw]
  · rfl

/-- Witness for `fallback_window_active_unconditional` at concrete raw
epoch-ms pairs, exercising both the bedtime fill and — with the bedtime
window already filled — the school-time fill. -/
theorem fallback_window_active_unconditional_witness :
    parseScheduleItem tmMondayMidnight 5
      (.arr [.i 1700000000001, .i 1700000000002]) initDeviceInfo =
      .ok { initDeviceInfo with
        bedtime_window := some (1700000000001, 1700000000002),
        bedtime_active := true } ∧
    parseScheduleItem tmMondayMidnight 6
      (.arr [.i 1700000000003, .i 1700000000004])
      { initDeviceInfo with bedtime_window := some (1, 2) } =
      .ok { ({ initDeviceInfo with
          bedtime_window := some (1, 2) } : DeviceInfo) with
        schooltime_window := some (1700000000003, 1700000000004),
        schooltime_active := true } :=
  ⟨(fallback_window_active_unconditional tmMondayMidnight 5
      1700000000001 1700000000002 initDeviceInfo (1, 2)
      (by norm_num) (by norm_num)).1 rfl,
   (fallback_window_active_unconditional tmMondayMidnight 6
      1700000000003 1700000000004
      { initDeviceInfo with bedtime_window := some (1, 2) } (1, 2)
      (by norm_num) (by norm_num)).2.1 rfl rfl⟩

/-- C2: for a `CAEQ`-prefixed element, the element count selects the
branch.  A 6-item element whose `day` matches today is parsed as the
daily-limit tuple: `daily_limit_minutes` is set to its `minutes` field for
every `state_flag`, while `daily_limit_enabled` is true iff the element
index is `< 10` and `state_flag = 2`.  An 8-item `CAEQ` element never
touches the daily-limit fields, and (for today, `state_flag = 2`, in-range
times) it is parsed as the bedtime window. -/
theorem caeq_count_selects_branch
    (tm : PyTime) (idx : Nat) (tag : String) (day stateFlag minutes : Int)
    (c1 c2 : JVal) (d : DeviceInfo)
    (htag : pyStartsWith tag "CAEQ" = true)
    (hday : day = tm.isoweekday) :
    parseScheduleItem tm idx
      (.arr [.s tag, .i day, .i stateFlag, .i minutes, c1, c2]) d =
      .ok { d with
        daily_limit_enabled := decide (idx < 10) && decide (stateFlag = 2),
        daily_limit_minutes := minutes } ∧
    (∀ (x1 x2 x3 x4 x5 x6 x7 : JVal) (r : DeviceInfo),
      parseScheduleItem tm idx
        (.arr [.s tag, x1, x2, x3, x4, x5, x6, x7]) d = .ok r →
      r.daily_limit_enabled = d.daily_limit_enabled ∧
      r.daily_limit_minutes = d.daily_limit_minutes) ∧
    (∀ (sh sm eh em : Int) (c3 : JVal) (r : DeviceInfo),
      0 ≤ sh → sh ≤ 23 → 0 ≤ sm → sm ≤ 59 →
      0 ≤ eh → eh ≤ 23 → 0 ≤ em → em ≤ 59 →
      parseScheduleItem tm idx
        (.arr [.s tag, .i day, .i 2, .arr [.i sh, .i sm],
               .arr [.i eh, .i em], c1, c2, c3]) d = .ok r →
      r.bedtime_window = some (tm.todayMs sh sm, tm.todayMs eh em)) := by
  refine ⟨?_, ?_, ?_⟩
  · simp [parseScheduleItem, htag, hday]
  · intro x1 x2 x3 x4 x5 x6 x7 r h
    simp only [parseScheduleItem, List.length_cons, List.length_nil] at h
    norm_num [htag] at h
    cases x1 <;> cases x2 <;> try simp_all
    all_goals cases x3 <;> cases x4 <;> try simp_all
    all_goals
      rename_i dayv sfv l3 l4
      split at h
      · rcases hr1 : pyReplaceHourMinute (l3.getD 0 .null) (l3.getD 1 .null)
          with _ | p1 <;>
          rcases hr2 : pyReplaceHourMinute (l4.getD 0 .null) (l4.getD 1 .null)
            with _ | p2 <;>
          try simp_all [exceptBind_ok, exceptBind_error]
        all_goals rw [← h]; exact ⟨rfl, rfl⟩
      · simp_all
  · intro sh sm eh em c3 r hsh1 hsh2 hsm1 hsm2 heh1 heh2 hem1 hem2 h
    simp only [parseScheduleItem, List.length_cons, List.length_nil] at h
    norm_num [htag, hday, pyReplaceHourMinute, exceptBind_ok,
      hsh1, hsh2, hsm1, hsm2, heh1, heh2, hem1, hem2] at h
    rw [← h]

/-- Witness for `caeq_count_selects_branch`: a 6-element `CAEQBg` tuple for
Monday with `state_flag = 1` at index 3 still records 120 minutes while
leaving the limit disabled. -/
theorem caeq_count_selects_branch_witness :
    parseScheduleItem tmMondayMidnight 3
      (.arr [.s "CAEQBg", .i 1, .i 1, .i 120, .null, .null]) initDeviceInfo =
      .ok { initDeviceInfo with
        daily_limit_enabled := decide (3 < 10) && decide ((1 : Int) = 2),
        daily_limit_minutes := 120 } :=
  (caeq_count_selects_branch tmMondayMidnight 3 "CAEQBg" 1 1 120 .null .null
    initDeviceInfo rfl rfl).1

theorem finalizeDeviceInfo_fields (d : DeviceInfo) :
    (finalizeDeviceInfo d).daily_limit_enabled = d.daily_limit_enabled ∧
    (finalizeDeviceInfo d).daily_limit_minutes = d.daily_limit_minutes ∧
    (finalizeDeviceInfo d).used_minutes = d.used_minutes ∧
    (finalizeDeviceInfo d).bonus_minutes = d.bonus_minutes := by
  unfold finalizeDeviceInfo
  split
  · split
    · split
      · exact ⟨rfl, rfl, rfl, rfl⟩
      · exact ⟨rfl, rfl, rfl, rfl⟩
    · exact ⟨rfl, rfl, rfl, rfl⟩
  · exact ⟨rfl, rfl, rfl, rfl⟩

theorem finalizeDeviceInfo_bonus (d : DeviceInfo)
    (hen : d.daily_limit_enabled = true) (hm : 0 < d.daily_limit_minutes)
    (hb : 0 < d.bonus_minutes) :
    (finalizeDeviceInfo d).remaining_minutes = d.bonus_minutes := by
  unfold finalizeDeviceInfo
  simp [hen, hm, hb]

theorem finalizeDeviceInfo_dlr (d : DeviceInfo)
    (hen : d.daily_limit_enabled = true) (hm : 0 < d.daily_limit_minutes) :
    (finalizeDeviceInfo d).daily_limit_remaining =
      some (max 0 (d.daily_limit_minutes - d.used_minutes)) := by
  unfold finalizeDeviceInfo
  by_cases hb : 0 < d.bonus_minutes <;> simp [hen, hm, hb]

theorem parseDeviceEntry_finalize (tm : PyTime) (entry : JVal)
    (idv : JVal) (lk : Bool) (info : DeviceInfo)
    (h : parseDeviceEntry tm entry = .ok (some (idv, lk, info))) :
    ∃ d0, info = finalizeDeviceInfo d0 := by
  unfold parseDeviceEntry at h
  cases entry with
  | arr e =>
    by_cases h25 : e.length < 25
    · simp only [if_pos h25] at h
      simp at h
    · simp only [if_neg h25] at h
      by_cases htr : ¬ (entryDeviceId e).truthy
      · simp only [if_pos htr] at h
        simp at h
      · simp only [if_neg htr] at h
        cases hf : foldScheduleItems tm 0 e (entryUsedInfo e) with
        | error err => rw [hf] at h; simp [exceptBind_error] at h
        | ok d3 =>
          rw [hf] at h
          simp only [exceptBind_ok, Except.ok.injEq, Option.some.injEq,
            Prod.mk.injEq] at h
          exact ⟨d3, h.2.2.symm⟩
  | null => simp at h
  | i n => simp at h
  | s st => simp at h

theorem decodeAppliedEntries_mem_finalize (tm : PyTime) :
    ∀ (entries : List JVal) (res : AppliedResult),
      decodeAppliedEntries tm entries = .ok res →
      ∀ p ∈ res.devices, ∃ d0, p.2 = finalizeDeviceInfo d0 := by
  intro entries
  induction entries with
  | nil =>
    intro res h p hp
    simp only [decodeAppliedEntries] at h
    cases h
    simp at hp
  | cons e rest ih =>
    intro res h p hp
    simp only [decodeAppliedEntries] at h
    cases hpe : parseDeviceEntry tm e with
    | error err => rw [hpe] at h; simp [exceptBind_error] at h
    | ok oinfo =>
      rw [hpe] at h
      simp only [exceptBind_ok] at h
      cases oinfo with
      | none => exact ih res h p hp
      | some t =>
        obtain ⟨idv, lk, info⟩ := t
        cases hrest : decodeAppliedEntries tm rest with
        | error err => rw [hrest] at h; simp [exceptBind_error] at h
        | ok r =>
          rw [hrest] at h
          simp only [exceptBind_ok] at h
          cases h
          rcases List.mem_cons.mp hp with hph | hpt
          · subst hph
            exact parseDeviceEntry_finalize tm e idv lk info hpe
          · exact ih r hrest p hpt

theorem decodeApplied_mem_finalize (tm : PyTime) (raw : JVal)
    (res : AppliedResult) (p : JVal × DeviceInfo)
    (hdec : decodeAppliedTimeLimits tm raw = .ok res)
    (hmem : p ∈ res.devices) :
    ∃ d0, p.2 = finalizeDeviceInfo d0 := by
  unfold decodeAppliedTimeLimits at hdec
  cases raw with
  | arr l =>
    by_cases hlen : 1 < l.length
    · simp only [if_pos hlen] at hdec
      cases hd1 : l.getD 1 JVal.null with
      | arr entries =>
        rw [hd1] at hdec
        exact decodeAppliedEntries_mem_finalize tm entries res hdec p hmem
      | null => rw [hd1] at hdec; cases hdec; simp at hmem
      | i n => rw [hd1] at hdec; cases hdec; simp at hmem
      | s st => rw [hd1] at hdec; cases hdec; simp at hmem
    · simp only [if_neg hlen] at hdec
      cases hdec; simp at hmem
  | null => simp at hdec
  | i n => simp at hdec
  | s st => cases hdec; simp at hmem

/-- C1 amended: for every device entry decoded by the `appliedTimeLimits`
decoder whose result has `bonus_minutes > 0` AND an enabled, positive
daily limit, `remaining_minutes` equals `bonus_minutes` regardless of
`used_minutes`.  (Without an enabled positive daily limit the final
calculation block is skipped and `remaining_minutes` stays 0 — see the
counterexample.) -/
theorem bonus_replaces_quota_amended (tm : PyTime) (raw : JVal)
    (res : AppliedResult) (p : JVal × DeviceInfo)
    (hdec : decodeAppliedTimeLimits tm raw = .ok res)
    (hmem : p ∈ res.devices)
    (hb : 0 < p.2.bonus_minutes)
    (hen : p.2.daily_limit_enabled = true)
    (hm : 0 < p.2.daily_limit_minutes) :
    p.2.remaining_minutes = p.2.bonus_minutes := by
  obtain ⟨d0, hd0⟩ := decodeApplied_mem_finalize tm raw res p hdec hmem
  obtain ⟨hfen, hfm, hfu, hfb⟩ := finalizeDeviceInfo_fields d0
  rw [hd0] at hb hen hm ⊢
  rw [hfb] at hb ⊢
  rw [hfen] at hen
  rw [hfm] at hm
  exact finalizeDeviceInfo_bonus d0 hen hm hb

/-- C6 amended: for every decoded device entry with an enabled, POSITIVE
daily limit, `daily_limit_remaining` equals
`max(0, daily_limit_minutes - used_minutes)` independent of the bonus
state.  (With `daily_limit_minutes = 0` the key stays absent even though
`daily_limit_enabled` is true — see the counterexample.) -/
theorem daily_limit_remaining_amended (tm : PyTime) (raw : JVal)
    (res : AppliedResult) (p : JVal × DeviceInfo)
    (hdec : decodeAppliedTimeLimits tm raw = .ok res)
    (hmem : p ∈ res.devices)
    (hen : p.2.daily_limit_enabled = true)
    (hm : 0 < p.2.daily_limit_minutes) :
    p.2.daily_limit_remaining =
      some (max 0 (p.2.daily_limit_minutes - p.2.used_minutes)) := by
  obtain ⟨d0, hd0⟩ := decodeApplied_mem_finalize tm raw res p hdec hmem
  obtain ⟨hfen, hfm, hfu, hfb⟩ := finalizeDeviceInfo_fields d0
  rw [hd0] at hen hm ⊢
  rw [hfen] at hen
  rw [hfm] at hm ⊢
  rw [hfu]
  exact finalizeDeviceInfo_dlr d0 hen hm

/-- The bonus-override head slot used by the concrete fixtures: override
id `ov-1`, type code 10, device `device123`, 1800 bonus seconds. -/
def bonusOverrideSlot : JVal :=
  .arr ([.s "ov-1", .null, .i 10, .s "device123"] ++
    List.replicate 9 .null ++ [.arr [.arr [.s "1800"]]])

/-- A device entry holding a bonus override but no daily-limit tuple. -/
def rawBonusNoLimit : JVal :=
  .arr [.null, .arr [.arr
    ([bonusOverrideSlot] ++ List.replicate 24 .null ++ [.s "device123"])]]

/-- C1 counterexample: a device entry carrying a 30-minute bonus override
but no daily-limit tuple decodes to `bonus_minutes = 30` with
`remaining_minutes = 0`, so `remaining_minutes ≠ bonus_minutes`. -/
theorem bonus_replaces_quota_counterexample :
    (decodeAppliedTimeLimits tmMonday rawBonusNoLimit).map
      (fun r => r.devices.map
        (fun p => (p.1, p.2.bonus_minutes, p.2.remaining_minutes))) =
      .ok [(.s "device123", 30, 0)] ∧ (0 : Int) ≠ 30 :=
  ⟨by rfl, by norm_num⟩

/-- A device entry holding both the bonus override and an enabled
120-minute daily-limit tuple, with 3600000 ms used. -/
def rawBonusWithLimit : JVal :=
  .arr [.null, .arr [.arr
    ([bonusOverrideSlot, .null, .null,
      .arr [.s "CAEQBg", .i 1, .i 2, .i 120, .null, .null]] ++
     List.replicate 16 .null ++ [.s "3600000"] ++
     List.replicate 4 .null ++ [.s "device123"])]]

/-- The decoded device record for `rawBonusWithLimit` on `tmMonday`. -/
def infoBonusWithLimit : DeviceInfo where
  total_allowed_minutes := 30
  used_minutes := 60
  remaining_minutes := 30
  daily_limit_enabled := true
  daily_limit_minutes := 120
  daily_limit_remaining := some 60
  bedtime_window := none
  schooltime_window := none
  bedtime_active := false
  schooltime_active := false
  bonus_minutes := 30
  bonus_override_id := some (.s "ov-1")

/-- Witness for `bonus_replaces_quota_amended` on a concrete decoded
entry: bonus 30, daily limit 120 enabled, used 60 — remaining is 30. -/
theorem bonus_replaces_quota_amended_witness :
    infoBonusWithLimit.remaining_minutes = infoBonusWithLimit.bonus_minutes :=
  bonus_replaces_quota_amended tmMonday rawBonusWithLimit
    ⟨[(.s "device123", false)], [(.s "device123", infoBonusWithLimit)]⟩
    (.s "device123", infoBonusWithLimit)
    (by rfl) (List.mem_singleton.mpr rfl) (by norm_num [infoBonusWithLimit])
    rfl (by norm_num [infoBonusWithLimit])

/-- Witness for `daily_limit_remaining_amended` on the same concrete
decoded entry: `daily_limit_remaining = max 0 (120 - 60) = 60` even with
the bonus active. -/
theorem daily_limit_remaining_amended_witness :
    infoBonusWithLimit.daily_limit_remaining =
      some (max 0 (infoBonusWithLimit.daily_limit_minutes -
        infoBonusWithLimit.used_minutes)) :=
  daily_limit_remaining_amended tmMonday rawBonusWithLimit
    ⟨[(.s "device123", false)], [(.s "device123", infoBonusWithLimit)]⟩
    (.s "device123", infoBonusWithLimit)
    (by rfl) (List.mem_singleton.mpr rfl)
    rfl (by norm_num [infoBonusWithLimit])

/-- A device entry with an enabled daily-limit tuple whose minutes field
is 0. -/
def rawZeroMinuteLimit : JVal :=
  .arr [.null, .arr [.arr
    ([.null, .null, .null,
      .arr [.s "CAEQBg", .i 1, .i 2, .i 0, .null, .null]] ++
     List.replicate 21 .null ++ [.s "device123"])]]

/-- C6 counterexample: with `daily_limit_enabled = true` but
`daily_limit_minutes = 0`, the decoder leaves `daily_limit_remaining`
absent instead of `max(0, 0 - used) = 0`. -/
theorem daily_limit_remaining_counterexample :
    (decodeAppliedTimeLimits tmMonday rawZeroMinuteLimit).map
      (fun r => r.devices.map
        (fun p => (p.2.daily_limit_enabled, p.2.daily_limit_remaining))) =
      .ok [(true, none)] ∧
    (none : Option Int) ≠ some (max 0 ((0 : Int) - 0)) :=
  ⟨by rfl, by simp⟩

/-- Whether a revision item carries `type_flag = t`. -/
def revTypeIs (t : Int) (item : JVal) : Bool :=
  (item.nth 1).eqInt t

/-- The last item of type `t` in a revision list (the one whose
`state_flag` survives the forward fold). -/
def lastOfType (t : Int) : List JVal → Option JVal
  | [] => none
  | r :: rest =>
    match lastOfType t rest with
    | some x => some x
    | none => if revTypeIs t r then some r else none

/-- The valid revision set the backward scan settles on: the valid
revisions of the LAST payload element that has any. -/
def winningRevisions (dl : List JVal) : List JVal :=
  match dl.reverse.find? (fun e => !(validRevisions e).isEmpty) with
  | some e => validRevisions e
  | none => []

theorem scanRevisionsRev_eq (l : List JVal) :
    scanRevisionsRev l =
      match l.find? (fun e => !(validRevisions e).isEmpty) with
      | some e => (validRevisions e).foldl applyRevision initRevisionFlags
      | none => initRevisionFlags := by
  induction l with
  | nil => rfl
  | cons e rest ih =>
    cases e with
    | arr items =>
      by_cases hc : (items.filter revCandidate).isEmpty
      · have hval : validRevisions (.arr items) = [] := by
          simp only [validRevisions]
          rw [List.isEmpty_iff.mp hc]
          rfl
        simp only [scanRevisionsRev, hc, if_true, List.find?, hval,
          List.isEmpty_nil, Bool.not_true]
        exact ih
      · by_cases hv : ((items.filter revCandidate).filter revValidExtra).isEmpty
        · have hval : validRevisions (.arr items) = [] := by
            simp only [validRevisions]
            exact List.isEmpty_iff.mp hv
          simp only [scanRevisionsRev, hc, if_false, hv, if_true,
            List.find?, hval, List.isEmpty_nil, Bool.not_true]
          exact ih
        · have hval : (validRevisions (.arr items)).isEmpty = false := by
            simp only [validRevisions]
            exact Bool.not_eq_true _ ▸ (Bool.eq_false_iff.mpr
              (fun habs => hv habs))
          simp only [scanRevisionsRev, hc, if_false, hv, List.find?, hval,
            Bool.not_false, if_true]
          rfl
    | null => simpa [scanRevisionsRev, List.find?, validRevisions] using ih
    | i n => simpa [scanRevisionsRev, List.find?, validRevisions] using ih
    | s str => simpa [scanRevisionsRev, List.find?, validRevisions] using ih

theorem foldl_applyRevision_bedtime (l : List JVal) :
    ∀ st : RevisionFlags,
      (l.foldl applyRevision st).bedtime_enabled =
        (match lastOfType 1 l with
          | some r => (r.nth 2).eqInt 2
          | none => st.bedtime_enabled) ∧
      (l.foldl applyRevision st).bedtime_rule_id =
        (match lastOfType 1 l with
          | some r => some (r.nth 0)
          | none => st.bedtime_rule_id) := by
  induction l with
  | nil => intro st; exact ⟨rfl, rfl⟩
  | cons a rest ih =>
    intro st
    simp only [List.foldl_cons, lastOfType]
    cases hlast : lastOfType 1 rest with
    | some x =>
      obtain ⟨ih1, ih2⟩ := ih (applyRevision st a)
      rw [hlast] at ih1 ih2
      exact ⟨ih1, ih2⟩
    | none =>
      obtain ⟨ih1, ih2⟩ := ih (applyRevision st a)
      rw [hlast] at ih1 ih2
      by_cases ht : revTypeIs 1 a
      · have ha1 : (a.nth 1).eqInt 1 = true := ht
        constructor
        · rw [ih1]; simp [applyRevision, ha1, ht]
        · rw [ih2]; simp [applyRevision, ha1, ht]
      · have ha1 : (a.nth 1).eqInt 1 = false := by
          exact Bool.eq_false_iff.mpr (fun habs => ht habs)
        have hkeep : (applyRevision st a).bedtime_enabled = st.bedtime_enabled ∧
            (applyRevision st a).bedtime_rule_id = st.bedtime_rule_id := by
          unfold applyRevision
          rw [ha1]
          simp only [Bool.false_eq_true, if_false]
          by_cases ha2 : (a.nth 1).eqInt 2 = true <;> simp [ha2]
        constructor
        · rw [ih1, hkeep.1]; simp [ht]
        · rw [ih2, hkeep.2]; simp [ht]

theorem foldl_applyRevision_school (l : List JVal) :
    ∀ st : RevisionFlags,
      (l.foldl applyRevision st).school_time_enabled =
        (match lastOfType 2 l with
          | some r => (r.nth 2).eqInt 2
          | none => st.school_time_enabled) ∧
      (l.foldl applyRevision st).schooltime_rule_id =
        (match lastOfType 2 l with
          | some r => some (r.nth 0)
          | none => st.schooltime_rule_id) := by
  induction l with
  | nil => intro st; exact ⟨rfl, rfl⟩
  | cons a rest ih =>
    intro st
    simp only [List.foldl_cons, lastOfType]
    cases hlast : lastOfType 2 rest with
    | some x =>
      obtain ⟨ih1, ih2⟩ := ih (applyRevision st a)
      rw [hlast] at ih1 ih2
      exact ⟨ih1, ih2⟩
    | none =>
      obtain ⟨ih1, ih2⟩ := ih (applyRevision st a)
      rw [hlast] at ih1 ih2
      by_cases ht : revTypeIs 2 a
      · have ha2 : (a.nth 1).eqInt 2 = true := ht
        have ha1 : (a.nth 1).eqInt 1 = false := by
          cases hv : a.nth 1 with
          | i n =>
            have : n = 2 := by simpa [JVal.eqInt, hv] using ha2
            simp [JVal.eqInt, hv, this]
          | null => simp [JVal.eqInt]
          | s str => simp [JVal.eqInt]
          | arr items => simp [JVal.eqInt]
        constructor
        · rw [ih1]; simp [applyRevision, ha1, ha2, ht]
        · rw [ih2]; simp [applyRevision, ha1, ha2, ht]
      · have ha2 : (a.nth 1).eqInt 2 = false := by
          exact Bool.eq_false_iff.mpr (fun habs => ht habs)
        have hkeep : (applyRevision st a).school_time_enabled =
            st.school_time_enabled ∧
            (applyRevision st a).schooltime_rule_id = st.schooltime_rule_id := by
          unfold applyRevision
          by_cases ha1 : (a.nth 1).eqInt 1 = true <;> simp [ha1, ha2]
        constructor
        · rw [ih1, hkeep.1]; simp [ht]
        · rw [ih2, hkeep.2]; simp [ht]

theorem lastOfType_eq_filter (t : Int) (l : List JVal) :
    lastOfType t l = lastOfType t (l.filter (revTypeIs t)) := by
  induction l with
  | nil => rfl
  | cons a rest ih =>
    by_cases hp : revTypeIs t a
    · simp only [lastOfType, List.filter_cons, hp, if_true, ih]
    · have hp2 : revTypeIs t a = false :=
        Bool.eq_false_iff.mpr (fun habs => hp habs)
      simp only [lastOfType, List.filter_cons, hp2, Bool.false_eq_true,
        if_false, ih]
      try cases lastOfType t (rest.filter (revTypeIs t)) <;> simp [hp2]

/-- C4: the `timeLimit` decoder settles on the valid revisions (4-element
items with a rule id longer than 30 and flags in `{1, 2}`) of the LAST
payload element holding any (backward scan); within that set, the last
type-1 revision decides `bedtime_enabled` and the last type-2 revision
`school_time_enabled`, each as `state_flag == 2`; consequently the
resulting flags are unchanged under any reordering of the revision list
that preserves the per-type subsequences — in particular under swapping
the bedtime and school-time entries. -/
theorem revision_order_independent
    (meta : JVal) (dl : List JVal) (l₁ l₂ : List JVal) (st : RevisionFlags)
    (h1 : l₁.filter (revTypeIs 1) = l₂.filter (revTypeIs 1))
    (h2 : l₁.filter (revTypeIs 2) = l₂.filter (revTypeIs 2)) :
    (decodeTimeLimit (.arr [meta, .arr dl])).map
      (fun r => (r.bedtime_enabled, r.school_time_enabled,
                 r.bedtime_rule_id, r.schooltime_rule_id)) =
      .ok (((winningRevisions dl).foldl applyRevision
              initRevisionFlags).bedtime_enabled,
           ((winningRevisions dl).foldl applyRevision
              initRevisionFlags).school_time_enabled,
           ((winningRevisions dl).foldl applyRevision
              initRevisionFlags).bedtime_rule_id,
           ((winningRevisions dl).foldl applyRevision
              initRevisionFlags).schooltime_rule_id) ∧
    (l₁.foldl applyRevision st).bedtime_enabled =
      (match lastOfType 1 l₁ with
        | some r => (r.nth 2).eqInt 2
        | none => st.bedtime_enabled) ∧
    (l₁.foldl applyRevision st).school_time_enabled =
      (match lastOfType 2 l₁ with
        | some r => (r.nth 2).eqInt 2
        | none => st.school_time_enabled) ∧
    l₁.foldl applyRevision st = l₂.foldl applyRevision st := by
  have hrv : scanRevisionsRev dl.reverse =
      (winningRevisions dl).foldl applyRevision initRevisionFlags := by
    rw [scanRevisionsRev_eq]
    unfold winningRevisions
    cases dl.reverse.find? (fun e => !(validRevisions e).isEmpty) <;> rfl
  refine ⟨?_, (foldl_applyRevision_bedtime l₁ st).1,
          (foldl_applyRevision_school l₁ st).1, ?_⟩
  · by_cases hdl : 0 < dl.length
    · simp [decodeTimeLimit, hdl, hrv, Except.map]
    · have hnil : dl = [] := List.eq_nil_of_length_eq_zero (by omega)
      subst hnil
      simp [decodeTimeLimit, Except.map, winningRevisions, List.find?]
  · have hl1 : lastOfType 1 l₁ = lastOfType 1 l₂ := by
      rw [lastOfType_eq_filter, h1, ← lastOfType_eq_filter]
    have hl2 : lastOfType 2 l₁ = lastOfType 2 l₂ := by
      rw [lastOfType_eq_filter, h2, ← lastOfType_eq_filter]
    have hext : ∀ x y : RevisionFlags,
        x.bedtime_enabled = y.bedtime_enabled →
        x.school_time_enabled = y.school_time_enabled →
        x.bedtime_rule_id = y.bedtime_rule_id →
        x.schooltime_rule_id = y.schooltime_rule_id → x = y := by
      intro x y a b c d
      cases x; cases y; simp_all
    apply hext
    · rw [(foldl_applyRevision_bedtime l₁ st).1,
          (foldl_applyRevision_bedtime l₂ st).1, hl1]
    · rw [(foldl_applyRevision_school l₁ st).1,
          (foldl_applyRevision_school l₂ st).1, hl2]
    · rw [(foldl_applyRevision_bedtime l₁ st).2,
          (foldl_applyRevision_bedtime l₂ st).2, hl1]
    · rw [(foldl_applyRevision_school l₁ st).2,
          (foldl_applyRevision_school l₂ st).2, hl2]

/-- A valid bedtime-on revision (type 1, state 2). -/
def revBedtimeOn : JVal :=
  .arr [.s "aaaaaaaaaaaaaaaaaaaaaaaaaaaaaaaa", .i 1, .i 2,
        .arr [.i 0, .i 0]]

/-- A valid school-time-off revision (type 2, state 1). -/
def revSchoolOff : JVal :=
  .arr [.s "bbbbbbbbbbbbbbbbbbbbbbbbbbbbbbbb", .i 2, .i 1,
        .arr [.i 0, .i 0]]

/-- Witness for `revision_order_independent`: swapping a bedtime and a
school-time revision leaves the decoded flags unchanged. -/
theorem revision_order_independent_witness :
    [revBedtimeOn, revSchoolOff].foldl applyRevision initRevisionFlags =
      [revSchoolOff, revBedtimeOn].foldl applyRevision initRevisionFlags :=
  (revision_order_independent .null [.arr [revBedtimeOn, revSchoolOff]]
    [revBedtimeOn, revSchoolOff] [revSchoolOff, revBedtimeOn]
    initRevisionFlags (by rfl) (by rfl)).2.2.2

end FamilyLink
